import Mathlib

/-!
Shallow embedding of a small weather-proxy backend (Flask application).

The source consists of two route handlers, `weather_daily` and
`weather_weekly`, plus the shared helpers `build_api_call` and
`fetch_weather`.  Machine floats are modelled by exact rationals extended
with NaN and infinities; Python round uses round-half-to-even; Python int
conversion truncates toward zero (and raises ValueError on NaN).  JSON
dictionaries whose schema is fixed are modelled by structures with
optional fields; the units dictionary and the produced JSON are modelled
as association lists so that key-set properties can be stated.
-/

namespace App

/-! ## Python numeric primitives -/

/-- A Python float: an exact finite rational, NaN, or a signed infinity
(the Bool is the negative-sign flag). -/
inductive PyFloat where
  | fin : ℚ → PyFloat
  | nan : PyFloat
  | inf : Bool → PyFloat
deriving DecidableEq

/-- A Python exception as raised by the validation code. -/
inductive PyErr where
  | valueError : String → PyErr
  | overflowError : PyErr
deriving DecidableEq

/-- Truncation toward zero, the semantics of Python int() on a finite float. -/
def truncQ (q : ℚ) : ℤ := if 0 ≤ q then ⌊q⌋ else ⌈q⌉

/-- The ValueError message of int() applied to NaN. -/
def nanIntMsg : String := "cannot convert float NaN to integer"

/-- Python int() on a float: truncates finite values, raises ValueError on
NaN and OverflowError on infinities. -/
def intOfPyFloat : PyFloat → Except PyErr ℤ
  | PyFloat.fin q => Except.ok (truncQ q)
  | PyFloat.nan => Except.error (PyErr.valueError nanIntMsg)
  | PyFloat.inf _ => Except.error PyErr.overflowError

/-- Round half to even, the rounding mode of Python round(). -/
def roundHalfEven (q : ℚ) : ℤ :=
  let n := ⌊q⌋
  let r := q - (n : ℚ)
  if r < 1/2 then n
  else if 1/2 < r then n + 1
  else if n % 2 = 0 then n else n + 1

/-- Python round(x, nd) for nd decimal digits, on exact rationals. -/
def pyRound (q : ℚ) (nd : ℕ) : ℚ :=
  ((roundHalfEven (q * (10:ℚ) ^ nd) : ℤ) : ℚ) / (10:ℚ) ^ nd

/-- statistics.mean on a list of numbers (callers guard nonemptiness). -/
def mean (l : List ℚ) : ℚ := l.sum / (l.length : ℚ)

/-- Python max() over a list, None-guarded by the caller on empty input. -/
def pyMax : List ℚ → Option ℚ
  | [] => none
  | x :: xs => some (xs.foldl max x)

/-- Python min() over a list, None-guarded by the caller on empty input. -/
def pyMin : List ℚ → Option ℚ
  | [] => none
  | x :: xs => some (xs.foldl min x)

/-! ## Calendar dates (datetime.date) -/

/-- A calendar date, year-month-day. -/
structure Date where
  y : ℕ
  m : ℕ
  d : ℕ
deriving DecidableEq

/-- Gregorian leap-year rule. -/
def isLeap (y : ℕ) : Bool := (y % 4 == 0 && y % 100 != 0) || y % 400 == 0

/-- Number of days in a month of a given year. -/
def daysInMonth (y m : ℕ) : ℕ :=
  if m = 2 then (if isLeap y then 29 else 28)
  else if m = 4 ∨ m = 6 ∨ m = 9 ∨ m = 11 then 30
  else 31

/-- Strict calendar order on dates (lexicographic on year, month, day). -/
def dateLt (a b : Date) : Bool :=
  a.y < b.y ∨ (a.y = b.y ∧ (a.m < b.m ∨ (a.m = b.m ∧ a.d < b.d)))

/-- The day after a given date. -/
def nextDay (dt : Date) : Date :=
  if dt.d < daysInMonth dt.y dt.m then ⟨dt.y, dt.m, dt.d + 1⟩
  else if dt.m < 12 then ⟨dt.y, dt.m + 1, 1⟩
  else ⟨dt.y + 1, 1, 1⟩

/-- Date plus a number of days (datetime.timedelta addition). -/
def addDays (dt : Date) : ℕ → Date
  | 0 => dt
  | n + 1 => nextDay (addDays dt n)

/-- Decimal digit value of a character, if it is a digit. -/
def digitVal? (c : Char) : Option ℕ :=
  if c.isDigit then some (c.toNat - 48) else none

/-- date.fromisoformat: parse a strict YYYY-MM-DD string into a valid
calendar date, or fail. -/
def parseDate (s : String) : Option Date :=
  match s.data with
  | [y1, y2, y3, y4, h1, m1, m2, h2, d1, d2] =>
    if h1 = '-' ∧ h2 = '-' then
      match digitVal? y1, digitVal? y2, digitVal? y3, digitVal? y4,
            digitVal? m1, digitVal? m2, digitVal? d1, digitVal? d2 with
      | some a, some b, some c, some d, some e, some f, some g, some h =>
        let yy := 1000 * a + 100 * b + 10 * c + d
        let mo := 10 * e + f
        let da := 10 * g + h
        if 1 ≤ yy ∧ 1 ≤ mo ∧ mo ≤ 12 ∧ 1 ≤ da ∧ da ≤ daysInMonth yy mo then
          some ⟨yy, mo, da⟩
        else none
      | _, _, _, _, _, _, _, _ => none
    else none
  | _ => none

/-- Two-digit zero padding. -/
def pad2 (n : ℕ) : String :=
  if n < 10 then ("0") ++ (toString n) else toString n

/-- Four-digit zero padding. -/
def pad4 (n : ℕ) : String :=
  if n < 10 then ("000") ++ (toString n)
  else if n < 100 then ("00") ++ (toString n)
  else if n < 1000 then ("0") ++ (toString n)
  else toString n

/-- strftime with the %Y-%m-%d format. -/
def formatDate (dt : Date) : String :=
  (pad4 dt.y) ++ ("-") ++ (pad2 dt.m) ++ ("-") ++ (pad2 dt.d)

/-! ## Python float() string conversion -/

/-- Optional leading sign; returns the negative flag and the rest. -/
def parseSignOpt : List Char → Bool × List Char
  | '+' :: cs => (false, cs)
  | '-' :: cs => (true, cs)
  | cs => (false, cs)

/-- Greedy run of decimal digits. -/
def takeDigits : List Char → List ℕ × List Char
  | [] => ([], [])
  | c :: cs =>
    match digitVal? c with
    | some d => let p := takeDigits cs; (d :: p.1, p.2)
    | none => ([], c :: cs)

/-- Numeric value of a digit string. -/
def digitsVal (ds : List ℕ) : ℕ := ds.foldl (fun a d => 10 * a + d) 0

/-- Scale factor contributed by an exponent. -/
def expFactor (neg : Bool) (e : ℕ) : ℚ :=
  if neg then 1 / (10:ℚ) ^ e else (10:ℚ) ^ e

/-- Parse the exponent part after the letter e and apply it. -/
def parseExpPart (mv : ℚ) (cs : List Char) : Option ℚ :=
  let p := parseSignOpt cs
  let q := takeDigits p.2
  if q.1 = [] ∨ q.2 ≠ [] then none
  else some (mv * expFactor p.1 (digitsVal q.1))

/-- Value of integer-part digits together with fraction-part digits. -/
def mantissaVal (ip fp : List ℕ) : ℚ :=
  (digitsVal ip : ℚ) + (digitsVal fp : ℚ) / (10:ℚ) ^ fp.length

/-- Unsigned float literal: digits, optional point and fraction, optional
exponent; at least one digit around the point is required. -/
def parseFloatBody (cs : List Char) : Option ℚ :=
  let ipr := takeDigits cs
  match ipr.2 with
  | [] => if ipr.1 = [] then none else some (digitsVal ipr.1 : ℚ)
  | '.' :: r2 =>
    let fpr := takeDigits r2
    if ipr.1 = [] ∧ fpr.1 = [] then none
    else
      match fpr.2 with
      | [] => some (mantissaVal ipr.1 fpr.1)
      | c :: r4 =>
        if c = 'e' ∨ c = 'E' then parseExpPart (mantissaVal ipr.1 fpr.1) r4
        else none
  | c :: r2 =>
    if (c = 'e' ∨ c = 'E') ∧ ipr.1 ≠ [] then
      parseExpPart (digitsVal ipr.1 : ℚ) r2
    else none

/-- Strip leading and trailing whitespace. -/
def trimChars (cs : List Char) : List Char :=
  ((cs.dropWhile Char.isWhitespace).reverse.dropWhile Char.isWhitespace).reverse

/-- Case-insensitive comparison against a lowercase pattern. -/
def lowerEq (cs : List Char) (t : List Char) : Bool := cs.map Char.toLower == t

/-- Python float(): optional sign, then nan, inf(inity), or a float
literal; whitespace around the value is ignored. -/
def pyFloat (s : String) : Option PyFloat :=
  let cs := trimChars s.data
  let p := parseSignOpt cs
  if lowerEq p.2 ['n', 'a', 'n'] then some PyFloat.nan
  else if lowerEq p.2 ['i', 'n', 'f'] ||
          lowerEq p.2 ['i', 'n', 'f', 'i', 'n', 'i', 't', 'y'] then
    some (PyFloat.inf p.1)
  else (parseFloatBody p.2).map (fun q => PyFloat.fin (if p.1 then -q else q))

/-! ## JSON values and the upstream body -/

/-- A JSON value, used for the produced responses. -/
inductive Json where
  | str : String → Json
  | num : ℚ → Json
  | arr : List Json → Json
  | obj : List (String × Json) → Json
  | null : Json

/-- The daily object of the upstream body; absent arrays are None. -/
structure DailyData where
  time : Option (List String) := none
  sunshine_duration : Option (List ℚ) := none
  temperature_2m_max : Option (List ℚ) := none
  temperature_2m_min : Option (List ℚ) := none
  weather_code : Option (List ℤ) := none
  pressure_msl_mean : Option (List ℚ) := none
deriving DecidableEq

/-- The parsed upstream JSON body.  daily_units is an association list in
insertion order, as a Python dict; an absent dict is the empty list. -/
structure RawBody where
  daily : Option DailyData := none
  daily_units : List (String × String) := []
  latitude : Option ℚ := none
  longitude : Option ℚ := none
deriving DecidableEq

/-- dict.get(k, <default>) on the units dictionary. -/
def unitsGet (units : List (String × String)) (k : String) : String :=
  match units.find? (fun kv => kv.1 == k) with
  | some kv => kv.2
  | none => ""

/-- Key lookup in a produced JSON object. -/
def jlookup (kvs : List (String × Json)) (k : String) : Option Json :=
  match kvs.find? (fun kv => kv.1 == k) with
  | some kv => some kv.2
  | none => none

mutual

/-- Does a key occur anywhere in a JSON value (at any nesting depth)? -/
def keyOccurs (k : String) : Json → Bool
  | Json.obj kvs => keyOccursKvs k kvs
  | Json.arr js => keyOccursList k js
  | _ => false

/-- keyOccurs over a list of JSON values. -/
def keyOccursList (k : String) : List Json → Bool
  | [] => false
  | j :: js => keyOccurs k j || keyOccursList k js

/-- keyOccurs over the entries of a JSON object. -/
def keyOccursKvs (k : String) : List (String × Json) → Bool
  | [] => false
  | kv :: kvs => kv.1 == k || keyOccurs k kv.2 || keyOccursKvs k kvs

end

/-! ## collections.Counter most_common(1) -/

/-- The keys of Counter(l) in insertion order: the elements of l in order
of first occurrence, without duplicates. -/
def firstOccs : List ℤ → List ℤ
  | [] => []
  | x :: xs => x :: (firstOccs xs).filter (fun y => y != x)

/-- The multiplicities of the Counter keys, in insertion order. -/
def countsList (l : List ℤ) : List ℕ := (firstOccs l).map (fun x => l.count x)

/-- The largest multiplicity occurring in the list. -/
def maxCount (l : List ℤ) : ℕ := (countsList l).foldr max 0

/-- Counter(l).most_common(1): heapq.nlargest is a stable selection of the
largest-count item, so the winner is the first key in insertion order
whose count is maximal. -/
def most_common1 (l : List ℤ) : Option ℤ :=
  (firstOccs l).find? (fun x => l.count x == maxCount l)

/-! ## The weekly summary -/

/-- The aggregate record produced by the weekly endpoint. -/
structure WeeklyResult where
  avg_pressure_hPa : Option ℚ
  weekly_max_temp : Option ℚ
  weekly_min_temp : Option ℚ
  avg_sunshine_hours : Option ℚ
  most_frequent_weather_code : Option ℤ
  latitude : Option ℚ
  longitude : Option ℚ
  start_date : Option String
  end_date : Option String
deriving DecidableEq

/-- Outcome of the weekly data transformation step. -/
inductive WeeklyOutcome where
  | noData
  | emptyData
  | ok : WeeklyResult → WeeklyOutcome
deriving DecidableEq

/-- Transformation step of weather_weekly: checks for the daily object,
extracts the five arrays with empty defaults, rejects the all-empty case,
and otherwise computes the aggregates.  start? and end? are the raw route
arguments (None when the caller omitted them): the result echoes exactly
these when the time array is missing or empty. -/
def weather_weekly_transform (raw : RawBody) (start? end? : Option String) :
    WeeklyOutcome :=
  match raw.daily with
  | none => WeeklyOutcome.noData
  | some d =>
    let pressures := d.pressure_msl_mean.getD []
    let t_max := d.temperature_2m_max.getD []
    let t_min := d.temperature_2m_min.getD []
    let sunshine := d.sunshine_duration.getD []
    let codes := d.weather_code.getD []
    let time := d.time.getD []
    if pressures = [] ∧ t_max = [] ∧ t_min = [] ∧ sunshine = [] ∧ codes = [] then
      WeeklyOutcome.emptyData
    else
      WeeklyOutcome.ok
        { avg_pressure_hPa :=
            if pressures ≠ [] then some (pyRound (mean pressures) 1) else none
          weekly_max_temp := pyMax t_max
          weekly_min_temp := pyMin t_min
          avg_sunshine_hours :=
            if sunshine ≠ [] then some (pyRound (mean sunshine / 3600) 2) else none
          most_frequent_weather_code :=
            if codes ≠ [] then most_common1 codes else none
          latitude := raw.latitude
          longitude := raw.longitude
          start_date := if time ≠ [] then time.head? else start?
          end_date := if time ≠ [] then time.getLast? else end? }

/-! ## The daily filter -/

/-- The filtered JSON object built by weather_daily from the daily object
and the units dictionary. -/
def filtered_daily (d : DailyData) (units : List (String × String)) : Json :=
  Json.obj [
    ("daily", Json.obj [
      ("time", Json.arr ((d.time.getD []).map Json.str)),
      ("sunshine_duration", Json.arr ((d.sunshine_duration.getD []).map Json.num)),
      ("temperature_2m_max", Json.arr ((d.temperature_2m_max.getD []).map Json.num)),
      ("temperature_2m_min", Json.arr ((d.temperature_2m_min.getD []).map Json.num)),
      ("weather_code", Json.arr ((d.weather_code.getD []).map (fun z => Json.num (z : ℚ))))]),
    ("daily_units", Json.obj [
      ("sunshine_duration", Json.str (unitsGet units ("sunshine_duration"))),
      ("temperature_2m_max", Json.str (unitsGet units ("temperature_2m_max"))),
      ("temperature_2m_min", Json.str (unitsGet units ("temperature_2m_min")))])]

/-! ## Routes -/

/-- HTTP-level outcome of a request; unhandled marks an exception the
route does not catch. -/
inductive HttpOutcome (α : Type) where
  | ok : α → HttpOutcome α
  | badRequest : String → HttpOutcome α
  | notFound : String → HttpOutcome α
  | unhandled : HttpOutcome α

/-- The 400 message for non-numeric coordinates. -/
def numericMsg : String := "Latitude and longitude must be numeric (e.g. 37.77 -122.42)."

/-- The 400 message for out-of-range coordinates. -/
def boundsMsg : String := "Latitude must be −90…90 and longitude −180…180."

/-- The 400 message for malformed dates. -/
def dateFmtMsg : String := "Dates must be YYYY-MM-DD."

/-- The 400 message for a start date after the end date. -/
def dateOrderMsg : String := "start_date cannot be after end_date."

/-- The 404 message when the body is empty or lacks a daily object. -/
def noDataMsg : String := "No weather data found for the given location and date range."

/-- The 404 message when all five weekly arrays are empty. -/
def emptyDataMsg : String := "Weather service returned empty data set."

/-- The upstream query produced by build_api_call: rounded coordinates,
the field-set flag, and the effective date strings. -/
structure UrlQuery where
  latitude : ℚ
  longitude : ℚ
  dailyFields : Bool
  start_date : String
  end_date : String
deriving DecidableEq

/-- The finite value of a PyFloat (only reached on the fin branch). -/
def qOfPyFloat : PyFloat → ℚ
  | PyFloat.fin q => q
  | _ => 0

/-- build_api_call: defaults absent dates to today and today+7, converts
each coordinate with int() and bounds-checks the integer part (latitude
first, short-circuiting), parses both dates, rejects start after end, and
finally builds the query with coordinates rounded to 2 decimals. -/
def build_api_call (lat lon : PyFloat) (daily : Bool)
    (start? end? : Option String) (today : Date) : Except PyErr UrlQuery :=
  let start := start?.getD (formatDate today)
  let endS := end?.getD (formatDate (addDays today 7))
  match intOfPyFloat lat with
  | Except.error e => Except.error e
  | Except.ok ilat =>
    if ¬ (-90 ≤ ilat ∧ ilat ≤ 90) then Except.error (PyErr.valueError boundsMsg)
    else
      match intOfPyFloat lon with
      | Except.error e => Except.error e
      | Except.ok ilon =>
        if ¬ (-180 ≤ ilon ∧ ilon ≤ 180) then
          Except.error (PyErr.valueError boundsMsg)
        else
          match parseDate start, parseDate endS with
          | some ds, some de =>
            if dateLt de ds then Except.error (PyErr.valueError dateOrderMsg)
            else
              Except.ok
                { latitude := pyRound (qOfPyFloat lat) 2
                  longitude := pyRound (qOfPyFloat lon) 2
                  dailyFields := daily
                  start_date := start
                  end_date := endS }
          | _, _ => Except.error (PyErr.valueError dateFmtMsg)

/-- Transformation step of weather_daily: 404 when the body is empty or
has no daily object, otherwise the filtered view. -/
def weather_daily_transform (raw : RawBody) : HttpOutcome Json :=
  match raw.daily with
  | none => HttpOutcome.notFound noDataMsg
  | some d => HttpOutcome.ok (filtered_daily d raw.daily_units)

/-- weather_daily route handler.  The upstream body is the (successful)
response of the provider; the Bool records whether the outbound call was
made.  A ValueError escaping build_api_call maps to 400; an OverflowError
is not caught by the route. -/
def weather_daily (latS lonS : String) (start? end? : Option String)
    (today : Date) (upstream : RawBody) : HttpOutcome Json × Bool :=
  match pyFloat latS, pyFloat lonS with
  | some lat, some lon =>
    (match build_api_call lat lon true start? end? today with
     | Except.error (PyErr.valueError msg) => (HttpOutcome.badRequest msg, false)
     | Except.error PyErr.overflowError => (HttpOutcome.unhandled, false)
     | Except.ok _ => (weather_daily_transform upstream, true))
  | _, _ => (HttpOutcome.badRequest numericMsg, false)

/-- weather_weekly route handler, mirroring weather_daily but requesting
the pressure field and returning the aggregate summary. -/
def weather_weekly (latS lonS : String) (start? end? : Option String)
    (today : Date) (upstream : RawBody) : HttpOutcome WeeklyResult × Bool :=
  match pyFloat latS, pyFloat lonS with
  | some lat, some lon =>
    (match build_api_call lat lon false start? end? today with
     | Except.error (PyErr.valueError msg) => (HttpOutcome.badRequest msg, false)
     | Except.error PyErr.overflowError => (HttpOutcome.unhandled, false)
     | Except.ok _ =>
       (match weather_weekly_transform upstream start? end? with
        | WeeklyOutcome.noData => HttpOutcome.notFound noDataMsg
        | WeeklyOutcome.emptyData => HttpOutcome.notFound emptyDataMsg
        | WeeklyOutcome.ok r => HttpOutcome.ok r, true))
  | _, _ => (HttpOutcome.badRequest numericMsg, false)

/-! ## Observers on outcomes -/

/-- The 400 message of an outcome, when it is a 400. -/
def badRequestMsg? {α : Type} : HttpOutcome α → Option String
  | HttpOutcome.badRequest m => some m
  | _ => none

/-- The 404 message of an outcome, when it is a 404. -/
def notFoundMsg? {α : Type} : HttpOutcome α → Option String
  | HttpOutcome.notFound m => some m
  | _ => none

/-- The start_date field of a successful weekly outcome. -/
def weeklyStart? : HttpOutcome WeeklyResult → Option (Option String)
  | HttpOutcome.ok r => some r.start_date
  | _ => none

/-- The end_date field of a successful weekly outcome. -/
def weeklyEnd? : HttpOutcome WeeklyResult → Option (Option String)
  | HttpOutcome.ok r => some r.end_date
  | _ => none

/-! ## Concrete example bodies -/

/-- The daily object of the specification example for the weekly view. -/
def dC1 : DailyData :=
  { time := some [("2025-06-01"), ("2025-06-02")]
    sunshine_duration := some [3600, 3600]
    temperature_2m_max := some [5, 10]
    temperature_2m_min := some [2, 0]
    weather_code := some [3, 3, 2]
    pressure_msl_mean := some [1000, 1020] }

/-- The upstream body of the specification example for the weekly view. -/
def rawC1 : RawBody := { daily := some dC1 }

/-- A body with a daily object that has weather codes but no time array. -/
def rawC3 : RawBody := { daily := some { weather_code := some [1] } }

/-- The weekly summary record produced for the example body. -/
def rC3w : WeeklyResult :=
  { avg_pressure_hPa := some (pyRound (mean [1000, 1020]) 1)
    weekly_max_temp := pyMax [5, 10]
    weekly_min_temp := pyMin [2, 0]
    avg_sunshine_hours := some (pyRound (mean [3600, 3600] / 3600) 2)
    most_frequent_weather_code := most_common1 [3, 3, 2]
    latitude := none
    longitude := none
    start_date := some ("2025-06-01")
    end_date := some ("2025-06-02") }

/-- The daily object of the specification example for the daily view. -/
def dC5 : DailyData :=
  { time := some [("2025-06-01"), ("2025-06-02")]
    sunshine_duration := some [3600, 7200]
    temperature_2m_max := some [25, 26]
    temperature_2m_min := some [15, 16]
    weather_code := some [0, 1] }

/-- The upstream body of the specification example for the daily view. -/
def rawC5 : RawBody :=
  { daily := some dC5
    daily_units := [(("sunshine_duration"), ("s")), (("temperature_2m_max"), ("C")),
      (("temperature_2m_min"), ("C"))] }

/-- A body whose units dictionary also supplies units for time and
weather_code. -/
def rawC9 : RawBody :=
  { daily := some {}
    daily_units := [(("time"), ("iso8601")), (("weather_code"), ("wmo code")),
      (("sunshine_duration"), ("s"))] }

/-! ## Lemmas: Python max and min over nonempty lists -/

lemma le_foldl_max (xs : List ℚ) (a : ℚ) : a ≤ xs.foldl max a := by
  induction xs generalizing a with
  | nil => exact le_refl a
  | cons x xs ih => exact le_trans (le_max_left a x) (ih (max a x))

lemma mem_le_foldl_max (xs : List ℚ) (a : ℚ) : ∀ y ∈ xs, y ≤ xs.foldl max a := by
  induction xs generalizing a with
  | nil => intro y hy; cases hy
  | cons x xs ih =>
    intro y hy
    rcases List.mem_cons.mp hy with h | h
    · subst h
      exact le_trans (le_max_right a y) (le_foldl_max xs (max a y))
    · exact ih (max a x) y h

lemma foldl_max_mem (xs : List ℚ) (a : ℚ) :
    xs.foldl max a = a ∨ xs.foldl max a ∈ xs := by
  induction xs generalizing a with
  | nil => exact Or.inl rfl
  | cons x xs ih =>
    rcases ih (max a x) with h | h
    · rcases max_cases a x with ⟨he, _⟩ | ⟨he, _⟩
      · exact Or.inl (by simpa [List.foldl_cons, he] using h)
      · refine Or.inr (List.mem_cons.mpr (Or.inl ?_))
        simpa [List.foldl_cons, he] using h
    · exact Or.inr (List.mem_cons.mpr (Or.inr (by simpa [List.foldl_cons] using h)))

/-- pyMax of a nonempty list is an element and an upper bound. -/
lemma pyMax_spec (x : ℚ) (xs : List ℚ) :
    ∃ mx, pyMax (x :: xs) = some mx ∧ mx ∈ x :: xs ∧ ∀ y ∈ x :: xs, y ≤ mx := by
  refine ⟨xs.foldl max x, rfl, ?_, ?_⟩
  · rcases foldl_max_mem xs x with h | h
    · rw [h]; exact List.mem_cons_self x xs
    · exact List.mem_cons.mpr (Or.inr h)
  · intro y hy
    rcases List.mem_cons.mp hy with h | h
    · rw [h]; exact le_foldl_max xs x
    · exact mem_le_foldl_max xs x y h

lemma foldl_min_le (xs : List ℚ) (a : ℚ) : xs.foldl min a ≤ a := by
  induction xs generalizing a with
  | nil => exact le_refl a
  | cons x xs ih => exact le_trans (ih (min a x)) (min_le_left a x)

lemma foldl_min_le_mem (xs : List ℚ) (a : ℚ) : ∀ y ∈ xs, xs.foldl min a ≤ y := by
  induction xs generalizing a with
  | nil => intro y hy; cases hy
  | cons x xs ih =>
    intro y hy
    rcases List.mem_cons.mp hy with h | h
    · subst h
      exact le_trans (foldl_min_le xs (min a y)) (min_le_right a y)
    · exact ih (min a x) y h

lemma foldl_min_mem (xs : List ℚ) (a : ℚ) :
    xs.foldl min a = a ∨ xs.foldl min a ∈ xs := by
  induction xs generalizing a with
  | nil => exact Or.inl rfl
  | cons x xs ih =>
    rcases ih (min a x) with h | h
    · rcases min_cases a x with ⟨he, _⟩ | ⟨he, _⟩
      · exact Or.inl (by simpa [List.foldl_cons, he] using h)
      · refine Or.inr (List.mem_cons.mpr (Or.inl ?_))
        simpa [List.foldl_cons, he] using h
    · exact Or.inr (List.mem_cons.mpr (Or.inr (by simpa [List.foldl_cons] using h)))

/-- pyMin of a nonempty list is an element and a lower bound. -/
lemma pyMin_spec (x : ℚ) (xs : List ℚ) :
    ∃ mn, pyMin (x :: xs) = some mn ∧ mn ∈ x :: xs ∧ ∀ y ∈ x :: xs, mn ≤ y := by
  refine ⟨xs.foldl min x, rfl, ?_, ?_⟩
  · rcases foldl_min_mem xs x with h | h
    · rw [h]; exact List.mem_cons_self x xs
    · exact List.mem_cons.mpr (Or.inr h)
  · intro y hy
    rcases List.mem_cons.mp hy with h | h
    · rw [h]; exact foldl_min_le xs x
    · exact foldl_min_le_mem xs x y h

/-! ## Lemmas: Counter most_common(1) is the first-occurrence mode -/

lemma mem_firstOccs (a : ℤ) : ∀ l : List ℤ, a ∈ firstOccs l ↔ a ∈ l := by
  intro l
  induction l with
  | nil => simp [firstOccs]
  | cons x xs ih =>
    by_cases hax : a = x
    · subst hax
      simp [firstOccs]
    · simp only [firstOccs, List.mem_cons, List.mem_filter, bne_iff_ne]
      constructor
      · rintro (h | ⟨h, _⟩)
        · exact absurd h hax
        · exact Or.inr (ih.mp h)
      · rintro (h | h)
        · exact absurd h hax
        · exact Or.inr ⟨ih.mpr h, hax⟩

lemma find?_filter_ne (p : ℤ → Bool) (x : ℤ) (hpx : p x = false) :
    ∀ l : List ℤ, (l.filter (fun y => y != x)).find? p = l.find? p := by
  intro l
  induction l with
  | nil => rfl
  | cons z l ih =>
    by_cases hzx : z = x
    · subst hzx
      have h1 : (z :: l).filter (fun y => y != z) = l.filter (fun y => y != z) := by
        simp [List.filter_cons]
      rw [h1, ih]
      have h2 : (z :: l).find? p = l.find? p := by
        simp only [List.find?, hpx]
      rw [h2]
    · have hb : (z != x) = true := bne_iff_ne.mpr hzx
      simp only [List.filter_cons, hb]
      cases hpz : p z with
      | true => simp [List.find?, hpz]
      | false => simp only [List.find?, hpz]; exact ih

lemma find?_firstOccs (p : ℤ → Bool) : ∀ l : List ℤ, (firstOccs l).find? p = l.find? p := by
  intro l
  induction l with
  | nil => rfl
  | cons x xs ih =>
    cases hpx : p x with
    | true => simp [firstOccs, List.find?, hpx]
    | false =>
      simp only [firstOccs, List.find?, hpx]
      rw [find?_filter_ne p x hpx (firstOccs xs), ih]

lemma le_foldr_max_nat (n : ℕ) : ∀ ns : List ℕ, n ∈ ns → n ≤ ns.foldr max 0 := by
  intro ns
  induction ns with
  | nil => intro h; cases h
  | cons m ns ih =>
    intro h
    rcases List.mem_cons.mp h with h | h
    · exact h ▸ le_max_left m (ns.foldr max 0)
    · exact le_trans (ih h) (le_max_right m (ns.foldr max 0))

lemma foldr_max_mem_nat : ∀ ns : List ℕ, ns ≠ [] → ns.foldr max 0 ∈ ns := by
  intro ns
  induction ns with
  | nil => intro h; exact absurd rfl h
  | cons m ns ih =>
    intro _
    by_cases hns : ns = []
    · subst hns; simp
    · rcases max_cases m (ns.foldr max 0) with ⟨he, _⟩ | ⟨he, _⟩
      · rw [List.foldr_cons, he]
        exact List.mem_cons_self m ns
      · rw [List.foldr_cons, he]
        exact List.mem_cons.mpr (Or.inr (ih hns))

lemma find?_mem_of_exists (p : ℤ → Bool) :
    ∀ l : List ℤ, (∃ a ∈ l, p a = true) → ∃ m, l.find? p = some m := by
  intro l
  induction l with
  | nil => rintro ⟨a, ha, _⟩; cases ha
  | cons x xs ih =>
    rintro ⟨a, ha, hpa⟩
    cases hpx : p x with
    | true => exact ⟨x, by simp [List.find?, hpx]⟩
    | false =>
      rcases List.mem_cons.mp ha with h | h
      · subst h; rw [hpa] at hpx; cases hpx
      · obtain ⟨m, hm⟩ := ih ⟨a, h, hpa⟩
        exact ⟨m, by simp [List.find?, hpx, hm]⟩

lemma find?_indexOf_le (p : ℤ → Bool) :
    ∀ (l : List ℤ) (m : ℤ), l.find? p = some m →
      ∀ y ∈ l, p y = true → l.indexOf m ≤ l.indexOf y := by
  intro l
  induction l with
  | nil => intro m hm; cases hm
  | cons x xs ih =>
    intro m hm y hy hpy
    cases hpx : p x with
    | true =>
      simp only [List.find?, hpx] at hm
      injection hm with hm
      subst hm
      simp [List.indexOf_cons_self]
    | false =>
      simp only [List.find?, hpx] at hm
      have hpm : p m = true := List.find?_some hm
      have hmx : m ≠ x := by
        intro h; rw [h, hpx] at hpm; cases hpm
      have hyx : y ≠ x := by
        intro h; rw [h, hpx] at hpy; cases hpy
      rcases List.mem_cons.mp hy with h | h
      · exact absurd h hyx
      · have := ih m hm y h hpy
        rw [List.indexOf_cons_ne xs (Ne.symm hmx), List.indexOf_cons_ne xs (Ne.symm hyx)]
        exact Nat.succ_le_succ this

/-- Characterization of Counter(l).most_common(1): the result is an
element of maximal count whose first occurrence is earliest among the
tied values. -/
lemma most_common1_spec (l : List ℤ) (hne : l ≠ []) :
    ∃ m, most_common1 l = some m ∧ m ∈ l ∧
      (∀ y ∈ l, l.count y ≤ l.count m) ∧
      (∀ y ∈ l, l.count y = l.count m → l.indexOf m ≤ l.indexOf y) := by
  classical
  set p : ℤ → Bool := fun x => l.count x == maxCount l with hp
  have hfo_ne : firstOccs l ≠ [] := by
    cases l with
    | nil => exact absurd rfl hne
    | cons x xs => simp [firstOccs]
  have hmax_mem : maxCount l ∈ countsList l :=
    foldr_max_mem_nat (countsList l) (by simpa [countsList] using hfo_ne)
  obtain ⟨a, ha_mem, ha_eq⟩ := List.mem_map.mp (by simpa [countsList] using hmax_mem)
  have ha_l : a ∈ l := (mem_firstOccs a l).mp ha_mem
  have hpa : p a = true := by simp [hp, ha_eq]
  obtain ⟨m, hm⟩ := find?_mem_of_exists p l ⟨a, ha_l, hpa⟩
  have hmc : most_common1 l = some m := by
    rw [most_common1, find?_firstOccs p l]
    exact hm
  have hpm : p m = true := List.find?_some hm
  have hcount_m : l.count m = maxCount l := by simpa [hp] using hpm
  have hmem_m : m ∈ l := List.mem_of_find?_eq_some hm
  refine ⟨m, hmc, hmem_m, ?_, ?_⟩
  · intro y hy
    have : l.count y ∈ countsList l :=
      List.mem_map.mpr ⟨y, (mem_firstOccs y l).mpr hy, rfl⟩
    rw [hcount_m]
    exact le_foldr_max_nat (l.count y) (countsList l) this
  · intro y hy hcy
    have hpy : p y = true := by simp [hp, hcy, hcount_m]
    exact find?_indexOf_le p l m hm y hy hpy

/-! ## Lemmas: scalar JSON arrays contain no keys -/

lemma keyOccursList_map_scalar {α : Type} (k : String) (f : α → Json)
    (hf : ∀ a, keyOccurs k (f a) = false) (l : List α) :
    keyOccursList k (l.map f) = false := by
  induction l with
  | nil => simp [keyOccursList]
  | cons a l ih => simp [keyOccursList, hf a, ih]

lemma keyOccurs_num (k : String) (q : ℚ) : keyOccurs k (Json.num q) = false := by
  simp [keyOccurs]

lemma keyOccurs_str (k s : String) : keyOccurs k (Json.str s) = false := by
  simp [keyOccurs]

/-! ## Lemmas: route reduction -/

lemma weather_daily_build_err (latS lonS : String) (start? end? : Option String)
    (today : Date) (up : RawBody) (lat lon : PyFloat) (msg : String)
    (hla : pyFloat latS = some lat) (hlo : pyFloat lonS = some lon)
    (hb : build_api_call lat lon true start? end? today =
      Except.error (PyErr.valueError msg)) :
    weather_daily latS lonS start? end? today up = (HttpOutcome.badRequest msg, false) := by
  simp [weather_daily, hla, hlo, hb]

lemma weather_daily_build_ok (latS lonS : String) (start? end? : Option String)
    (today : Date) (up : RawBody) (lat lon : PyFloat) (u : UrlQuery)
    (hla : pyFloat latS = some lat) (hlo : pyFloat lonS = some lon)
    (hb : build_api_call lat lon true start? end? today = Except.ok u) :
    weather_daily latS lonS start? end? today up = (weather_daily_transform up, true) := by
  simp [weather_daily, hla, hlo, hb]

lemma weather_weekly_build_err (latS lonS : String) (start? end? : Option String)
    (today : Date) (up : RawBody) (lat lon : PyFloat) (msg : String)
    (hla : pyFloat latS = some lat) (hlo : pyFloat lonS = some lon)
    (hb : build_api_call lat lon false start? end? today =
      Except.error (PyErr.valueError msg)) :
    weather_weekly latS lonS start? end? today up = (HttpOutcome.badRequest msg, false) := by
  simp [weather_weekly, hla, hlo, hb]

lemma weather_weekly_build_ok (latS lonS : String) (start? end? : Option String)
    (today : Date) (up : RawBody) (lat lon : PyFloat) (u : UrlQuery)
    (hla : pyFloat latS = some lat) (hlo : pyFloat lonS = some lon)
    (hb : build_api_call lat lon false start? end? today = Except.ok u) :
    (weather_weekly latS lonS start? end? today up).1 =
      (match weather_weekly_transform up start? end? with
       | WeeklyOutcome.noData => HttpOutcome.notFound noDataMsg
       | WeeklyOutcome.emptyData => HttpOutcome.notFound emptyDataMsg
       | WeeklyOutcome.ok r => HttpOutcome.ok r) := by
  simp [weather_weekly, hla, hlo, hb]

/-! ## Claim theorems -/

/-- C8: a latitude or longitude path segment that float() cannot parse
makes both endpoints answer 400 with the numeric message and make no
outbound call (second component false), for every upstream body. -/
theorem C8_nonnumeric_400_no_call (latS lonS : String) (start? end? : Option String)
    (today : Date) (up : RawBody)
    (h : pyFloat latS = none ∨ pyFloat lonS = none) :
    weather_daily latS lonS start? end? today up =
      (HttpOutcome.badRequest numericMsg, false) ∧
    weather_weekly latS lonS start? end? today up =
      (HttpOutcome.badRequest numericMsg, false) := by
  cases hla : pyFloat latS with
  | none =>
    cases hlo : pyFloat lonS with
    | none => exact ⟨by simp [weather_daily, hla, hlo], by simp [weather_weekly, hla, hlo]⟩
    | some lon => exact ⟨by simp [weather_daily, hla, hlo], by simp [weather_weekly, hla, hlo]⟩
  | some lat =>
    cases hlo : pyFloat lonS with
    | none => exact ⟨by simp [weather_daily, hla, hlo], by simp [weather_weekly, hla, hlo]⟩
    | some lon =>
      rw [hla, hlo] at h
      rcases h with h | h <;> cases h

/-- C8 witness: the non-numeric segment foo is rejected by both endpoints
with no call made. -/
theorem C8_nonnumeric_400_no_call_witness :
    weather_daily ("foo") ("20") none none (Date.mk 2025 6 1) {} =
      (HttpOutcome.badRequest numericMsg, false) ∧
    weather_weekly ("foo") ("20") none none (Date.mk 2025 6 1) {} =
      (HttpOutcome.badRequest numericMsg, false) :=
  C8_nonnumeric_400_no_call ("foo") ("20") none none (Date.mk 2025 6 1) {} (Or.inl rfl)

/-- C10: a coordinate that parses as NaN reaches int() inside
build_api_call, whose ValueError the route catches, so both endpoints
answer 400 (not an unhandled exception); stated for NaN latitude, and for
NaN longitude when the latitude passes its bounds check. -/
theorem C10_nan_maps_to_400 (latS lonS : String) (start? end? : Option String)
    (today : Date) (up : RawBody) :
    (pyFloat latS = some PyFloat.nan →
      ∀ lo, pyFloat lonS = some lo →
        (weather_daily latS lonS start? end? today up).1 =
          HttpOutcome.badRequest nanIntMsg ∧
        (weather_weekly latS lonS start? end? today up).1 =
          HttpOutcome.badRequest nanIntMsg) ∧
    (∀ la, pyFloat latS = some (PyFloat.fin la) → pyFloat lonS = some PyFloat.nan →
      -90 ≤ truncQ la → truncQ la ≤ 90 →
        (weather_daily latS lonS start? end? today up).1 =
          HttpOutcome.badRequest nanIntMsg ∧
        (weather_weekly latS lonS start? end? today up).1 =
          HttpOutcome.badRequest nanIntMsg) := by
  constructor
  · intro hla lo hlo
    have hb : ∀ daily, build_api_call PyFloat.nan lo daily start? end? today =
        Except.error (PyErr.valueError nanIntMsg) := by
      intro daily
      simp [build_api_call, intOfPyFloat]
    exact ⟨by rw [weather_daily_build_err latS lonS start? end? today up _ lo _ hla hlo (hb true)],
           by rw [weather_weekly_build_err latS lonS start? end? today up _ lo _ hla hlo (hb false)]⟩
  · intro la hla hlo h1 h2
    have hb : ∀ daily, build_api_call (PyFloat.fin la) PyFloat.nan daily start? end? today =
        Except.error (PyErr.valueError nanIntMsg) := by
      intro daily
      simp [build_api_call, intOfPyFloat, h1, h2]
    exact ⟨by rw [weather_daily_build_err latS lonS start? end? today up _ _ _ hla hlo (hb true)],
           by rw [weather_weekly_build_err latS lonS start? end? today up _ _ _ hla hlo (hb false)]⟩

/-- C10 witness: the segment nan is parsed by float() and both endpoints
answer 400 with the NaN conversion message. -/
theorem C10_nan_maps_to_400_witness :
    (weather_daily ("nan") ("20") none none (Date.mk 2025 6 1) {}).1 =
      HttpOutcome.badRequest nanIntMsg ∧
    (weather_weekly ("nan") ("20") none none (Date.mk 2025 6 1) {}).1 =
      HttpOutcome.badRequest nanIntMsg :=
  (C10_nan_maps_to_400 ("nan") ("20") none none (Date.mk 2025 6 1) {}).1 rfl
    (PyFloat.fin 20) (by decide)

/-- C6: with parseable coordinates and a successful build, the weekly
endpoint answers 404 with the empty-data message exactly when the body
has a daily object whose five aggregate arrays are all empty; a missing
daily object gives the no-data 404 instead. -/
theorem C6_weekly_empty_404 (latS lonS : String) (start? end? : Option String)
    (today : Date) (up : RawBody) (lat lon : PyFloat) (u : UrlQuery)
    (hla : pyFloat latS = some lat) (hlo : pyFloat lonS = some lon)
    (hb : build_api_call lat lon false start? end? today = Except.ok u) :
    (notFoundMsg? (weather_weekly latS lonS start? end? today up).1 = some emptyDataMsg ↔
      ∃ d, up.daily = some d ∧ d.pressure_msl_mean.getD [] = [] ∧
        d.temperature_2m_max.getD [] = [] ∧ d.temperature_2m_min.getD [] = [] ∧
        d.sunshine_duration.getD [] = [] ∧ d.weather_code.getD [] = []) ∧
    (up.daily = none →
      notFoundMsg? (weather_weekly latS lonS start? end? today up).1 = some noDataMsg) := by
  rw [weather_weekly_build_ok latS lonS start? end? today up lat lon u hla hlo hb]
  cases hd : up.daily with
  | none =>
    constructor
    · simp only [weather_weekly_transform, hd]
      constructor
      · intro h
        simp only [notFoundMsg?] at h
        injection h with h
        exact absurd (congrArg String.data h) (by decide)
      · rintro ⟨d, hdd, _⟩
        cases hdd
    · intro _
      simp only [weather_weekly_transform, hd]
      rfl
  | some d =>
    constructor
    · simp only [weather_weekly_transform, hd]
      by_cases hc : d.pressure_msl_mean.getD [] = [] ∧ d.temperature_2m_max.getD [] = [] ∧
          d.temperature_2m_min.getD [] = [] ∧ d.sunshine_duration.getD [] = [] ∧
          d.weather_code.getD [] = []
      · rw [if_pos hc]
        exact ⟨fun _ => ⟨d, rfl, hc.1, hc.2.1, hc.2.2.1, hc.2.2.2.1, hc.2.2.2.2⟩, fun _ => rfl⟩
      · rw [if_neg hc]
        constructor
        · intro h
          simp only [notFoundMsg?] at h
          cases h
        · rintro ⟨d2, hdd, h1, h2, h3, h4, h5⟩
          injection hdd with hdd
          subst hdd
          exact absurd ⟨h1, h2, h3, h4, h5⟩ hc
    · intro h
      cases h

/-- C6 witness: a body with a daily object whose five arrays are all
empty gets the empty-data 404, and the all-empty condition holds. -/
theorem C6_weekly_empty_404_witness :
    (notFoundMsg? (weather_weekly ("10") ("20") none none (Date.mk 2025 6 1)
        { daily := some {} }).1 = some emptyDataMsg ↔
      ∃ d, ({ daily := some {} } : RawBody).daily = some d ∧
        d.pressure_msl_mean.getD [] = [] ∧ d.temperature_2m_max.getD [] = [] ∧
        d.temperature_2m_min.getD [] = [] ∧ d.sunshine_duration.getD [] = [] ∧
        d.weather_code.getD [] = []) ∧
    (({ daily := some {} } : RawBody).daily = none →
      notFoundMsg? (weather_weekly ("10") ("20") none none (Date.mk 2025 6 1)
        { daily := some {} }).1 = some noDataMsg) :=
  C6_weekly_empty_404 ("10") ("20") none none (Date.mk 2025 6 1) { daily := some {} }
    (PyFloat.fin 10) (PyFloat.fin 20) _ rfl rfl rfl

/-- C2: with parseable finite coordinates and valid ordered dates, each
endpoint rejects with the bounds message exactly when int-truncation of
the latitude lies outside [-90, 90] or that of the longitude outside
[-180, 180]; the float values themselves are not bounds-checked, so for
example latitude 90.9 (truncating to 90) is accepted. -/
theorem C2_truncated_bounds (latS lonS s e : String) (today : Date) (up : RawBody)
    (la lo : ℚ) (ds de : Date)
    (hla : pyFloat latS = some (PyFloat.fin la)) (hlo : pyFloat lonS = some (PyFloat.fin lo))
    (hs : parseDate s = some ds) (he : parseDate e = some de) (hord : dateLt de ds = false) :
    badRequestMsg? (weather_daily latS lonS (some s) (some e) today up).1 =
      (if -90 ≤ truncQ la ∧ truncQ la ≤ 90 ∧ -180 ≤ truncQ lo ∧ truncQ lo ≤ 180 then
        none else some boundsMsg) ∧
    badRequestMsg? (weather_weekly latS lonS (some s) (some e) today up).1 =
      (if -90 ≤ truncQ la ∧ truncQ la ≤ 90 ∧ -180 ≤ truncQ lo ∧ truncQ lo ≤ 180 then
        none else some boundsMsg) := by
  by_cases hA : -90 ≤ truncQ la ∧ truncQ la ≤ 90
  · by_cases hB : -180 ≤ truncQ lo ∧ truncQ lo ≤ 180
    · have hb : ∀ daily, build_api_call (PyFloat.fin la) (PyFloat.fin lo) daily
          (some s) (some e) today =
          Except.ok { latitude := pyRound la 2, longitude := pyRound lo 2,
                      dailyFields := daily, start_date := s, end_date := e } := by
        intro daily
        simp [build_api_call, intOfPyFloat, hA.1, hA.2, hB.1, hB.2, hs, he, hord, qOfPyFloat]
      rw [weather_daily_build_ok latS lonS (some s) (some e) today up _ _ _ hla hlo (hb true),
          weather_weekly_build_ok latS lonS (some s) (some e) today up _ _ _ hla hlo (hb false),
          if_pos ⟨hA.1, hA.2, hB.1, hB.2⟩]
      constructor
      · cases hud : up.daily <;> simp [weather_daily_transform, hud, badRequestMsg?]
      · cases h : weather_weekly_transform up (some s) (some e) <;> simp [badRequestMsg?]
    · have hb : ∀ daily, build_api_call (PyFloat.fin la) (PyFloat.fin lo) daily
          (some s) (some e) today = Except.error (PyErr.valueError boundsMsg) := by
        intro daily
        simp [build_api_call, intOfPyFloat, hA.1, hA.2, hB]
      rw [weather_daily_build_err latS lonS (some s) (some e) today up _ _ _ hla hlo (hb true),
          weather_weekly_build_err latS lonS (some s) (some e) today up _ _ _ hla hlo (hb false),
          if_neg (fun h => hB ⟨h.2.2.1, h.2.2.2⟩)]
      exact ⟨rfl, rfl⟩
  · have hb : ∀ daily, build_api_call (PyFloat.fin la) (PyFloat.fin lo) daily
        (some s) (some e) today = Except.error (PyErr.valueError boundsMsg) := by
      intro daily
      simp [build_api_call, intOfPyFloat, hA]
    rw [weather_daily_build_err latS lonS (some s) (some e) today up _ _ _ hla hlo (hb true),
        weather_weekly_build_err latS lonS (some s) (some e) today up _ _ _ hla hlo (hb false),
        if_neg (fun h => hA ⟨h.1, h.2.1⟩)]
    exact ⟨rfl, rfl⟩

/-- C2 witness: latitude 90.9 truncates to 90 and is accepted (no 400) by
both endpoints. -/
theorem C2_truncated_bounds_witness :
    badRequestMsg? (weather_daily ("90.9") ("20") (some ("2025-06-01")) (some ("2025-06-02"))
        (Date.mk 2025 6 1) {}).1 =
      (if -90 ≤ truncQ (909/10) ∧ truncQ (909/10) ≤ 90 ∧
          -180 ≤ truncQ 20 ∧ truncQ 20 ≤ 180 then none else some boundsMsg) ∧
    badRequestMsg? (weather_weekly ("90.9") ("20") (some ("2025-06-01")) (some ("2025-06-02"))
        (Date.mk 2025 6 1) {}).1 =
      (if -90 ≤ truncQ (909/10) ∧ truncQ (909/10) ≤ 90 ∧
          -180 ≤ truncQ 20 ∧ truncQ 20 ≤ 180 then none else some boundsMsg) :=
  C2_truncated_bounds ("90.9") ("20") ("2025-06-01") ("2025-06-02") (Date.mk 2025 6 1) {}
    (909/10) 20 (Date.mk 2025 6 1) (Date.mk 2025 6 2)
    (by
      have h1 : pyFloat ("90.9") = some (PyFloat.fin (mantissaVal [9, 0] [9])) := rfl
      have h2 : mantissaVal [9, 0] [9] = 909/10 := by
        norm_num [mantissaVal, show digitsVal [9, 0] = 90 from rfl,
          show digitsVal [9] = 9 from rfl]
      rw [h2] at h1
      exact h1)
    (by decide) rfl rfl rfl

/-- C7: with parseable in-bounds coordinates, a supplied date pair fails
with the format message when either date is not a valid YYYY-MM-DD date,
and with the order message when the parsed start date is after the parsed
end date, on both endpoints. -/
theorem C7_date_validation (latS lonS s e : String) (today : Date) (up : RawBody)
    (la lo : ℚ)
    (hla : pyFloat latS = some (PyFloat.fin la)) (hlo : pyFloat lonS = some (PyFloat.fin lo))
    (hA : -90 ≤ truncQ la ∧ truncQ la ≤ 90) (hB : -180 ≤ truncQ lo ∧ truncQ lo ≤ 180) :
    ((parseDate s = none ∨ parseDate e = none) →
      badRequestMsg? (weather_daily latS lonS (some s) (some e) today up).1 =
        some dateFmtMsg ∧
      badRequestMsg? (weather_weekly latS lonS (some s) (some e) today up).1 =
        some dateFmtMsg) ∧
    (∀ ds de, parseDate s = some ds → parseDate e = some de → dateLt de ds = true →
      badRequestMsg? (weather_daily latS lonS (some s) (some e) today up).1 =
        some dateOrderMsg ∧
      badRequestMsg? (weather_weekly latS lonS (some s) (some e) today up).1 =
        some dateOrderMsg) := by
  constructor
  · intro hpf
    have hb : ∀ daily, build_api_call (PyFloat.fin la) (PyFloat.fin lo) daily
        (some s) (some e) today = Except.error (PyErr.valueError dateFmtMsg) := by
      intro daily
      rcases hpf with h | h
      · cases he2 : parseDate e <;>
          simp [build_api_call, intOfPyFloat, hA.1, hA.2, hB.1, hB.2, h, he2]
      · cases hs2 : parseDate s <;>
          simp [build_api_call, intOfPyFloat, hA.1, hA.2, hB.1, hB.2, h, hs2]
    rw [weather_daily_build_err latS lonS (some s) (some e) today up _ _ _ hla hlo (hb true),
        weather_weekly_build_err latS lonS (some s) (some e) today up _ _ _ hla hlo (hb false)]
    exact ⟨rfl, rfl⟩
  · intro ds de hs he hord
    have hb : ∀ daily, build_api_call (PyFloat.fin la) (PyFloat.fin lo) daily
        (some s) (some e) today = Except.error (PyErr.valueError dateOrderMsg) := by
      intro daily
      simp [build_api_call, intOfPyFloat, hA.1, hA.2, hB.1, hB.2, hs, he, hord]
    rw [weather_daily_build_err latS lonS (some s) (some e) today up _ _ _ hla hlo (hb true),
        weather_weekly_build_err latS lonS (some s) (some e) today up _ _ _ hla hlo (hb false)]
    exact ⟨rfl, rfl⟩

/-- C7 witness: a start date after the end date is rejected by both
endpoints with the order message, and a malformed date with the format
message. -/
theorem C7_date_validation_witness :
    (badRequestMsg? (weather_daily ("10") ("20") (some ("2025-06-10")) (some ("2025-06-05"))
        (Date.mk 2025 6 1) {}).1 = some dateOrderMsg ∧
     badRequestMsg? (weather_weekly ("10") ("20") (some ("2025-06-10")) (some ("2025-06-05"))
        (Date.mk 2025 6 1) {}).1 = some dateOrderMsg) ∧
    (badRequestMsg? (weather_daily ("10") ("20") (some ("junk")) (some ("2025-06-05"))
        (Date.mk 2025 6 1) {}).1 = some dateFmtMsg ∧
     badRequestMsg? (weather_weekly ("10") ("20") (some ("junk")) (some ("2025-06-05"))
        (Date.mk 2025 6 1) {}).1 = some dateFmtMsg) :=
  ⟨(C7_date_validation ("10") ("20") ("2025-06-10") ("2025-06-05") (Date.mk 2025 6 1) {}
      10 20 rfl rfl (by decide) (by decide)).2
      (Date.mk 2025 6 10) (Date.mk 2025 6 5) rfl rfl rfl,
   (C7_date_validation ("10") ("20") ("junk") ("2025-06-05") (Date.mk 2025 6 1) {}
      10 20 rfl rfl (by decide) (by decide)).1 (Or.inl rfl)⟩

/-- C1: when the weekly transformation produces a summary, avg_pressure_hPa
is the mean of the pressure array rounded to 1 decimal, weekly_max_temp and
weekly_min_temp are the maximum and minimum of their arrays,
avg_sunshine_hours is the mean of the sunshine array divided by 3600
rounded to 2 decimals, and each aggregate is null when its array is empty. -/
theorem C1_weekly_aggregates (raw : RawBody) (d : DailyData) (start? end? : Option String)
    (hd : raw.daily = some d)
    (hne : ¬ (d.pressure_msl_mean.getD [] = [] ∧ d.temperature_2m_max.getD [] = [] ∧
        d.temperature_2m_min.getD [] = [] ∧ d.sunshine_duration.getD [] = [] ∧
        d.weather_code.getD [] = [])) :
    ∃ r, weather_weekly_transform raw start? end? = WeeklyOutcome.ok r ∧
      (d.pressure_msl_mean.getD [] = [] → r.avg_pressure_hPa = none) ∧
      (d.pressure_msl_mean.getD [] ≠ [] →
        r.avg_pressure_hPa = some (pyRound (mean (d.pressure_msl_mean.getD [])) 1)) ∧
      (d.temperature_2m_max.getD [] = [] → r.weekly_max_temp = none) ∧
      (d.temperature_2m_max.getD [] ≠ [] →
        ∃ mx, r.weekly_max_temp = some mx ∧ mx ∈ d.temperature_2m_max.getD [] ∧
          ∀ y ∈ d.temperature_2m_max.getD [], y ≤ mx) ∧
      (d.temperature_2m_min.getD [] = [] → r.weekly_min_temp = none) ∧
      (d.temperature_2m_min.getD [] ≠ [] →
        ∃ mn, r.weekly_min_temp = some mn ∧ mn ∈ d.temperature_2m_min.getD [] ∧
          ∀ y ∈ d.temperature_2m_min.getD [], mn ≤ y) ∧
      (d.sunshine_duration.getD [] = [] → r.avg_sunshine_hours = none) ∧
      (d.sunshine_duration.getD [] ≠ [] →
        r.avg_sunshine_hours = some (pyRound (mean (d.sunshine_duration.getD []) / 3600) 2)) := by
  simp only [weather_weekly_transform, hd]
  rw [if_neg hne]
  refine ⟨_, rfl, ?_, ?_, ?_, ?_, ?_, ?_, ?_, ?_⟩
  · intro h; simp [h]
  · intro h; simp [h]
  · intro h; simp [h, pyMax]
  · intro h
    rcases hx : d.temperature_2m_max.getD [] with _ | ⟨x, xs⟩
    · exact absurd hx h
    · obtain ⟨mx, hmx, hmem, hub⟩ := pyMax_spec x xs
      exact ⟨mx, by simp [hx, hmx], hmem, hub⟩
  · intro h; simp [h, pyMin]
  · intro h
    rcases hx : d.temperature_2m_min.getD [] with _ | ⟨x, xs⟩
    · exact absurd hx h
    · obtain ⟨mn, hmn, hmem, hlb⟩ := pyMin_spec x xs
      exact ⟨mn, by simp [hx, hmn], hmem, hlb⟩
  · intro h; simp [h]
  · intro h; simp [h]

/-- C1 witness: the specification example evaluates to
avg_pressure_hPa = 1010, weekly_max_temp = 10, weekly_min_temp = 0,
avg_sunshine_hours = 1. -/
theorem C1_weekly_aggregates_witness :
    ∃ r, weather_weekly_transform rawC1 none none = WeeklyOutcome.ok r ∧
      r.avg_pressure_hPa = some 1010 ∧ r.weekly_max_temp = some 10 ∧
      r.weekly_min_temp = some 0 ∧ r.avg_sunshine_hours = some 1 := by
  obtain ⟨r, hok, _⟩ := C1_weekly_aggregates rawC1 dC1 none none rfl (by decide)
  have hval : weather_weekly_transform rawC1 none none = WeeklyOutcome.ok
      { avg_pressure_hPa := some (pyRound (mean [1000, 1020]) 1)
        weekly_max_temp := pyMax [5, 10]
        weekly_min_temp := pyMin [2, 0]
        avg_sunshine_hours := some (pyRound (mean [3600, 3600] / 3600) 2)
        most_frequent_weather_code := most_common1 [3, 3, 2]
        latitude := none
        longitude := none
        start_date := some ("2025-06-01")
        end_date := some ("2025-06-02") } := rfl
  refine ⟨_, hval, ?_, ?_, ?_, ?_⟩
  · show some (pyRound (mean [1000, 1020]) 1) = some 1010
    norm_num [pyRound, mean, roundHalfEven, List.sum_cons, List.sum_nil]
  · show pyMax [5, 10] = some 10
    norm_num [pyMax, List.foldl_cons, List.foldl_nil, max_def]
  · show pyMin [2, 0] = some 0
    norm_num [pyMin, List.foldl_cons, List.foldl_nil, min_def]
  · show some (pyRound (mean [3600, 3600] / 3600) 2) = some 1
    norm_num [pyRound, mean, roundHalfEven, List.sum_cons, List.sum_nil]

/-- C3 (amended): start_date and end_date of the weekly summary are the
first and last elements of the time array when it is present and
non-empty; otherwise they echo the raw route arguments, which are null
(not the internally defaulted date strings) when the caller omitted
them. -/
theorem C3_start_end_amended (raw : RawBody) (d : DailyData) (start? end? : Option String)
    (hd : raw.daily = some d) (r : WeeklyResult)
    (hok : weather_weekly_transform raw start? end? = WeeklyOutcome.ok r) :
    (∀ t ts, d.time = some (t :: ts) →
      r.start_date = some t ∧ r.end_date = (t :: ts).getLast?) ∧
    (d.time.getD [] = [] → r.start_date = start? ∧ r.end_date = end?) := by
  simp only [weather_weekly_transform, hd] at hok
  by_cases hne : d.pressure_msl_mean.getD [] = [] ∧ d.temperature_2m_max.getD [] = [] ∧
      d.temperature_2m_min.getD [] = [] ∧ d.sunshine_duration.getD [] = [] ∧
      d.weather_code.getD [] = []
  · rw [if_pos hne] at hok
    cases hok
  · rw [if_neg hne] at hok
    injection hok with hr
    subst hr
    constructor
    · intro t ts ht
      constructor
      · simp [ht]
      · simp [ht]
    · intro ht
      constructor
      · simp [ht]
      · simp [ht]

/-- C3 witness: with a present non-empty time array the summary carries
its first and last elements. -/
theorem C3_start_end_amended_witness :
    rC3w.start_date = some ("2025-06-01") ∧ rC3w.end_date = some ("2025-06-02") := by
  obtain ⟨h1, h2⟩ := (C3_start_end_amended rawC1 dC1 none none rfl rC3w rfl).1
    ("2025-06-01") [("2025-06-02")] rfl
  exact ⟨h1, h2.trans rfl⟩

/-- C3 counterexample: with the caller omitting the dates and the time
array absent, the weekly summary carries null for start_date and
end_date, not the defaulted strings today (2025-06-01) and today plus
seven days (2025-06-08) that the claim requires. -/
theorem C3_counterexample_defaults_not_echoed :
    weeklyStart? ((weather_weekly ("10") ("20") none none (Date.mk 2025 6 1) rawC3).1) =
      some none ∧
    weeklyEnd? ((weather_weekly ("10") ("20") none none (Date.mk 2025 6 1) rawC3).1) =
      some none ∧
    formatDate (Date.mk 2025 6 1) = "2025-06-01" ∧
    formatDate (addDays (Date.mk 2025 6 1) 7) = "2025-06-08" ∧
    weeklyStart? ((weather_weekly ("10") ("20") none none (Date.mk 2025 6 1) rawC3).1) ≠
      some (some (formatDate (Date.mk 2025 6 1))) ∧
    weeklyEnd? ((weather_weekly ("10") ("20") none none (Date.mk 2025 6 1) rawC3).1) ≠
      some (some (formatDate (addDays (Date.mk 2025 6 1) 7))) := by
  refine ⟨rfl, rfl, rfl, rfl, ?_, ?_⟩
  · intro h
    rw [show weeklyStart? ((weather_weekly ("10") ("20") none none
        (Date.mk 2025 6 1) rawC3).1) = some none from rfl] at h
    injection h with h
    cases h
  · intro h
    rw [show weeklyEnd? ((weather_weekly ("10") ("20") none none
        (Date.mk 2025 6 1) rawC3).1) = some none from rfl] at h
    injection h with h
    cases h

/-- C4: when the weather_code array is non-empty the weekly summary
carries a most_frequent_weather_code that is a mode of the array, and
among tied values it is the one whose first occurrence is earliest. -/
theorem C4_most_frequent_code (raw : RawBody) (d : DailyData) (start? end? : Option String)
    (hd : raw.daily = some d) (x : ℤ) (xs : List ℤ)
    (hc : d.weather_code.getD [] = x :: xs) :
    ∃ r m, weather_weekly_transform raw start? end? = WeeklyOutcome.ok r ∧
      r.most_frequent_weather_code = some m ∧ m ∈ x :: xs ∧
      (∀ y ∈ x :: xs, (x :: xs).count y ≤ (x :: xs).count m) ∧
      (∀ y ∈ x :: xs, (x :: xs).count y = (x :: xs).count m →
        (x :: xs).indexOf m ≤ (x :: xs).indexOf y) := by
  have hne : ¬ (d.pressure_msl_mean.getD [] = [] ∧ d.temperature_2m_max.getD [] = [] ∧
      d.temperature_2m_min.getD [] = [] ∧ d.sunshine_duration.getD [] = [] ∧
      d.weather_code.getD [] = []) := by
    intro h
    rw [hc] at h
    exact absurd h.2.2.2.2 (by simp)
  simp only [weather_weekly_transform, hd]
  rw [if_neg hne]
  obtain ⟨m, hm, hmem, hmax, htie⟩ := most_common1_spec (x :: xs) (by simp)
  refine ⟨_, m, rfl, ?_, hmem, hmax, htie⟩
  simp [hc, hm]

/-- C4 witness: for weather codes 3, 3, 2 the most frequent code is 3. -/
theorem C4_most_frequent_code_witness :
    ∃ r, weather_weekly_transform rawC1 none none = WeeklyOutcome.ok r ∧
      r.most_frequent_weather_code = some 3 := by
  obtain ⟨r, m, hok, hm, _, _, _⟩ :=
    C4_most_frequent_code rawC1 dC1 none none rfl 3 [3, 2] rfl
  refine ⟨r, hok, ?_⟩
  have h3 : most_common1 [3, 3, 2] = some 3 := by decide
  have hval : weather_weekly_transform rawC1 none none = WeeklyOutcome.ok
      { avg_pressure_hPa := some (pyRound (mean [1000, 1020]) 1)
        weekly_max_temp := pyMax [5, 10]
        weekly_min_temp := pyMin [2, 0]
        avg_sunshine_hours := some (pyRound (mean [3600, 3600] / 3600) 2)
        most_frequent_weather_code := most_common1 [3, 3, 2]
        latitude := none
        longitude := none
        start_date := some ("2025-06-01")
        end_date := some ("2025-06-02") } := rfl
  rw [hval] at hok
  injection hok with hr
  rw [← hr, h3]

/-- C5: with a daily object present, the daily endpoint returns exactly
the five arrays time, sunshine_duration, temperature_2m_max,
temperature_2m_min and weather_code, each defaulting to the empty array,
together with the three unit strings from daily_units defaulting to the
empty string, and the key pressure_msl_mean occurs nowhere in the
output. -/
theorem C5_daily_filtered_fields (raw : RawBody) (d : DailyData) (hd : raw.daily = some d) :
    weather_daily_transform raw = HttpOutcome.ok (filtered_daily d raw.daily_units) ∧
    (∃ dkvs ukvs,
      filtered_daily d raw.daily_units =
        Json.obj [(("daily"), Json.obj dkvs), (("daily_units"), Json.obj ukvs)] ∧
      dkvs.map Prod.fst = [("time"), ("sunshine_duration"), ("temperature_2m_max"),
        ("temperature_2m_min"), ("weather_code")] ∧
      jlookup dkvs ("time") = some (Json.arr ((d.time.getD []).map Json.str)) ∧
      jlookup dkvs ("sunshine_duration") =
        some (Json.arr ((d.sunshine_duration.getD []).map Json.num)) ∧
      jlookup dkvs ("temperature_2m_max") =
        some (Json.arr ((d.temperature_2m_max.getD []).map Json.num)) ∧
      jlookup dkvs ("temperature_2m_min") =
        some (Json.arr ((d.temperature_2m_min.getD []).map Json.num)) ∧
      jlookup dkvs ("weather_code") =
        some (Json.arr ((d.weather_code.getD []).map (fun z => Json.num (z : ℚ)))) ∧
      ukvs.map Prod.fst = [("sunshine_duration"), ("temperature_2m_max"),
        ("temperature_2m_min")] ∧
      jlookup ukvs ("sunshine_duration") =
        some (Json.str (unitsGet raw.daily_units ("sunshine_duration"))) ∧
      jlookup ukvs ("temperature_2m_max") =
        some (Json.str (unitsGet raw.daily_units ("temperature_2m_max"))) ∧
      jlookup ukvs ("temperature_2m_min") =
        some (Json.str (unitsGet raw.daily_units ("temperature_2m_min")))) ∧
    keyOccurs ("pressure_msl_mean") (filtered_daily d raw.daily_units) = false := by
  refine ⟨by simp [weather_daily_transform, hd], ?_, ?_⟩
  · exact ⟨_, _, rfl, rfl, rfl, rfl, rfl, rfl, rfl, rfl, rfl, rfl, rfl⟩
  · have harr1 : keyOccursList ("pressure_msl_mean") ((d.time.getD []).map Json.str) = false :=
      keyOccursList_map_scalar _ Json.str (fun a => keyOccurs_str _ a) _
    have harr2 : ∀ l : List ℚ, keyOccursList ("pressure_msl_mean") (l.map Json.num) = false :=
      fun l => keyOccursList_map_scalar _ Json.num (fun a => keyOccurs_num _ a) l
    have harr3 : keyOccursList ("pressure_msl_mean")
        ((d.weather_code.getD []).map (fun z => Json.num (z : ℚ))) = false :=
      keyOccursList_map_scalar _ _ (fun a => keyOccurs_num _ _) _
    simp [filtered_daily, keyOccurs, keyOccursKvs, keyOccursList, harr1, harr2, harr3]

/-- C5 witness: the specification example body for the daily view. -/
theorem C5_daily_filtered_fields_witness :
    weather_daily_transform rawC5 = HttpOutcome.ok (filtered_daily dC5 rawC5.daily_units) ∧
    (∃ dkvs ukvs,
      filtered_daily dC5 rawC5.daily_units =
        Json.obj [(("daily"), Json.obj dkvs), (("daily_units"), Json.obj ukvs)] ∧
      dkvs.map Prod.fst = [("time"), ("sunshine_duration"), ("temperature_2m_max"),
        ("temperature_2m_min"), ("weather_code")] ∧
      jlookup dkvs ("time") = some (Json.arr ((dC5.time.getD []).map Json.str)) ∧
      jlookup dkvs ("sunshine_duration") =
        some (Json.arr ((dC5.sunshine_duration.getD []).map Json.num)) ∧
      jlookup dkvs ("temperature_2m_max") =
        some (Json.arr ((dC5.temperature_2m_max.getD []).map Json.num)) ∧
      jlookup dkvs ("temperature_2m_min") =
        some (Json.arr ((dC5.temperature_2m_min.getD []).map Json.num)) ∧
      jlookup dkvs ("weather_code") =
        some (Json.arr ((dC5.weather_code.getD []).map (fun z => Json.num (z : ℚ)))) ∧
      ukvs.map Prod.fst = [("sunshine_duration"), ("temperature_2m_max"),
        ("temperature_2m_min")] ∧
      jlookup ukvs ("sunshine_duration") =
        some (Json.str (unitsGet rawC5.daily_units ("sunshine_duration"))) ∧
      jlookup ukvs ("temperature_2m_max") =
        some (Json.str (unitsGet rawC5.daily_units ("temperature_2m_max"))) ∧
      jlookup ukvs ("temperature_2m_min") =
        some (Json.str (unitsGet rawC5.daily_units ("temperature_2m_min")))) ∧
    keyOccurs ("pressure_msl_mean") (filtered_daily dC5 rawC5.daily_units) = false :=
  C5_daily_filtered_fields rawC5 dC5 rfl

/-- C9: with a daily object present, the units object of the daily
response has exactly the keys sunshine_duration, temperature_2m_max and
temperature_2m_min, and carries no entry for time or weather_code even
when the upstream units dictionary supplies one. -/
theorem C9_daily_units_exact_keys (raw : RawBody) (d : DailyData) (hd : raw.daily = some d) :
    ∃ top ukvs, weather_daily_transform raw = HttpOutcome.ok (Json.obj top) ∧
      jlookup top ("daily_units") = some (Json.obj ukvs) ∧
      ukvs.map Prod.fst = [("sunshine_duration"), ("temperature_2m_max"),
        ("temperature_2m_min")] ∧
      jlookup ukvs ("time") = none ∧
      jlookup ukvs ("weather_code") = none := by
  refine ⟨[(("daily"), Json.obj [
        (("time"), Json.arr ((d.time.getD []).map Json.str)),
        (("sunshine_duration"), Json.arr ((d.sunshine_duration.getD []).map Json.num)),
        (("temperature_2m_max"), Json.arr ((d.temperature_2m_max.getD []).map Json.num)),
        (("temperature_2m_min"), Json.arr ((d.temperature_2m_min.getD []).map Json.num)),
        (("weather_code"), Json.arr ((d.weather_code.getD []).map (fun z => Json.num (z : ℚ))))]),
       (("daily_units"), Json.obj [
        (("sunshine_duration"), Json.str (unitsGet raw.daily_units ("sunshine_duration"))),
        (("temperature_2m_max"), Json.str (unitsGet raw.daily_units ("temperature_2m_max"))),
        (("temperature_2m_min"), Json.str (unitsGet raw.daily_units ("temperature_2m_min")))])],
      [(("sunshine_duration"), Json.str (unitsGet raw.daily_units ("sunshine_duration"))),
       (("temperature_2m_max"), Json.str (unitsGet raw.daily_units ("temperature_2m_max"))),
       (("temperature_2m_min"), Json.str (unitsGet raw.daily_units ("temperature_2m_min")))],
      ?_, rfl, rfl, rfl, rfl⟩
  simp only [weather_daily_transform, hd]
  rfl

/-- C9 witness: a units dictionary that supplies entries for time and
weather_code still yields exactly the three temperature and sunshine unit
keys. -/
theorem C9_daily_units_exact_keys_witness :
    ∃ top ukvs, weather_daily_transform rawC9 = HttpOutcome.ok (Json.obj top) ∧
      jlookup top ("daily_units") = some (Json.obj ukvs) ∧
      ukvs.map Prod.fst = [("sunshine_duration"), ("temperature_2m_max"),
        ("temperature_2m_min")] ∧
      jlookup ukvs ("time") = none ∧
      jlookup ukvs ("weather_code") = none :=
  C9_daily_units_exact_keys rawC9 {} rfl

end App
